import Mathlib

/-!
Shallow embedding of the routing / escalation / resolution core of the
hiedcab front-door support agent (backend/app), together with proofs of the
behavioural properties claimed in its specification.

Python floats are modelled as rationals, Python lists as Lean lists,
Python dictionaries with string keys and string values as association
lists, and the asynchronous fallible collaborators (knowledge search,
ticket creation, response generation) as functions returning Except.
-/

namespace FrontDoor

/-- Target departments for routing support requests (models/enums.py, Department). -/
inductive Department where
  | IT | HR | REGISTRAR | FINANCIAL_AID | FACILITIES
  | STUDENT_AFFAIRS | CAMPUS_SAFETY | ESCALATE_TO_HUMAN
deriving DecidableEq

/-- Priority levels for support requests (models/enums.py, Priority). -/
inductive Priority where
  | LOW | MEDIUM | HIGH | URGENT
deriving DecidableEq

/-- Detected sentiment from user queries (models/enums.py, Sentiment). -/
inductive Sentiment where
  | NEUTRAL | FRUSTRATED | URGENT | SATISFIED
deriving DecidableEq

/-- Outcome status of the ActionAgent execution (models/enums.py, ActionStatus). -/
inductive ActionStatus where
  | CREATED | ESCALATED | PENDING_CLARIFICATION | KB_ONLY | ERROR
deriving DecidableEq

/-- Reasons for escalating to human review (models/enums.py, EscalationReason). -/
inductive EscalationReason where
  | CONFIDENCE_TOO_LOW | POLICY_KEYWORD_DETECTED | SENSITIVE_TOPIC
  | MULTI_DEPARTMENT | USER_REQUESTED_HUMAN | MAX_CLARIFICATIONS_EXCEEDED
deriving DecidableEq

/-- Categories for grouping detected intents (models/enums.py, IntentCategory). -/
inductive IntentCategory where
  | ACCOUNT_ACCESS | ACADEMIC_RECORDS | FINANCIAL | FACILITIES
  | ENROLLMENT | STUDENT_SERVICES | POLICY_EXCEPTION | GENERAL_INQUIRY
  | STATUS_CHECK | HUMAN_REQUEST
deriving DecidableEq

/-- String value of a Priority member (the .value attribute of the Python enum). -/
def priorityValue : Priority → String
  | .LOW => "LOW" | .MEDIUM => "MEDIUM" | .HIGH => "HIGH" | .URGENT => "URGENT"

/-- String value of a Sentiment member. -/
def sentimentValue : Sentiment → String
  | .NEUTRAL => "NEUTRAL" | .FRUSTRATED => "FRUSTRATED"
  | .URGENT => "URGENT" | .SATISFIED => "SATISFIED"

/-- String value of an EscalationReason member. -/
def escalationReasonValue : EscalationReason → String
  | .CONFIDENCE_TOO_LOW => "confidence_too_low"
  | .POLICY_KEYWORD_DETECTED => "policy_keyword_detected"
  | .SENSITIVE_TOPIC => "sensitive_topic"
  | .MULTI_DEPARTMENT => "multi_department"
  | .USER_REQUESTED_HUMAN => "user_requested_human"
  | .MAX_CLARIFICATIONS_EXCEEDED => "max_clarifications_exceeded"

/-- String value of an IntentCategory member. -/
def intentCategoryValue : IntentCategory → String
  | .ACCOUNT_ACCESS => "ACCOUNT_ACCESS" | .ACADEMIC_RECORDS => "ACADEMIC_RECORDS"
  | .FINANCIAL => "FINANCIAL" | .FACILITIES => "FACILITIES"
  | .ENROLLMENT => "ENROLLMENT" | .STUDENT_SERVICES => "STUDENT_SERVICES"
  | .POLICY_EXCEPTION => "POLICY_EXCEPTION" | .GENERAL_INQUIRY => "GENERAL_INQUIRY"
  | .STATUS_CHECK => "STATUS_CHECK" | .HUMAN_REQUEST => "HUMAN_REQUEST"

/-- Output of the QueryAgent intent detection (models/schemas.py, QueryResult).
Entity values are modelled as strings (the only shape the core inspects). -/
structure QueryResult where
  intent : String
  intent_category : IntentCategory
  department_suggestion : Department
  entities : List (String × String)
  confidence : ℚ
  requires_escalation : Bool
  pii_detected : Bool
  pii_types : List String
  sentiment : Sentiment
  urgency_indicators : List String

/-- Output of the RouterAgent routing logic (models/schemas.py, RoutingDecision). -/
structure RoutingDecision where
  department : Department
  priority : Priority
  escalate_to_human : Bool
  escalation_reason : Option EscalationReason
  suggested_sla_hours : Nat
  routing_rules_applied : List String

/-- A relevant help article from the knowledge base (models/schemas.py, KnowledgeArticle). -/
structure KnowledgeArticle where
  article_id : String
  title : String
  url : String
  snippet : Option String
  relevance_score : ℚ
  department : Option Department

/-- Output of the ActionAgent execution (models/schemas.py, ActionResult). -/
structure ActionResult where
  ticket_id : Option String
  ticket_url : Option String
  department : Department
  status : ActionStatus
  knowledge_articles : List KnowledgeArticle
  estimated_response_time : String
  escalated : Bool
  user_message : String

/-- The subset of application settings the routing core reads (core/config.py, Settings). -/
structure Settings where
  confidence_threshold : ℚ
  max_clarification_attempts : Nat
  sla_urgent_hours : Nat
  sla_high_hours : Nat
  sla_medium_hours : Nat
  sla_low_hours : Nat

/-- Default values of the settings fields used by the core (core/config.py). -/
def defaultSettings : Settings where
  confidence_threshold := 7/10
  max_clarification_attempts := 3
  sla_urgent_hours := 1
  sla_high_hours := 4
  sla_medium_hours := 24
  sla_low_hours := 72

/-- Lower-cases the ASCII letters of a string (Python str.lower as used on enum values). -/
def strLower (s : String) : String := ⟨s.data.map Char.toLower⟩

/-- Decimal digit character for a digit value; total by returning a placeholder
off-range (never reached by the callers below). -/
def digitChar : Nat → Char
  | 0 => '0' | 1 => '1' | 2 => '2' | 3 => '3' | 4 => '4'
  | 5 => '5' | 6 => '6' | 7 => '7' | 8 => '8' | 9 => '9'
  | _ => '*'

/-- Fuel-indexed decimal digit expansion, most significant digit first. -/
def natDigitsAux : Nat → Nat → List Char
  | 0, _ => []
  | fuel + 1, n =>
    if n < 10 then [digitChar n]
    else natDigitsAux fuel (n / 10) ++ [digitChar (n % 10)]

/-- Decimal rendering of a natural number (Python str of an int). -/
def natRepr (n : Nat) : String := ⟨natDigitsAux (n + 1) n⟩

/-- Joins a list of strings with a separator (Python sep.join). -/
def joinSep (sep : String) : List String → String
  | [] => ""
  | [x] => x
  | x :: xs => x ++ sep ++ joinSep sep xs

/-- First n characters of a string (Python slicing by code points). -/
def pyTake (s : String) (n : Nat) : String := ⟨s.data.take n⟩

namespace RouterAgent

/-- Department mappings based on intent category
(router_agent.py, RouterAgent.CATEGORY_TO_DEPARTMENT).  The Python dictionary
holds an entry for every category, hence every lookup returns some value. -/
def categoryToDepartment : IntentCategory → Option Department
  | .ACCOUNT_ACCESS => some .IT
  | .ACADEMIC_RECORDS => some .REGISTRAR
  | .FINANCIAL => some .FINANCIAL_AID
  | .FACILITIES => some .FACILITIES
  | .ENROLLMENT => some .REGISTRAR
  | .STUDENT_SERVICES => some .STUDENT_AFFAIRS
  | .POLICY_EXCEPTION => some .STUDENT_AFFAIRS
  | .GENERAL_INQUIRY => some .IT
  | .STATUS_CHECK => some .IT
  | .HUMAN_REQUEST => some .ESCALATE_TO_HUMAN

/-- Intents that always require human review (router_agent.py, ESCALATION_INTENTS). -/
def escalationIntents : List String :=
  ["grade_appeal", "withdrawal_request", "waiver_request",
   "refund_request", "request_human", "speak_to_person"]

/-- Determine priority based on query analysis (router_agent.py, _determine_priority). -/
def determinePriority (s : Settings) (q : QueryResult) : Priority :=
  if q.requires_escalation then .URGENT
  else if q.sentiment = .FRUSTRATED then .HIGH
  else if q.sentiment = .URGENT then .HIGH
  else if q.urgency_indicators ≠ [] then .HIGH
  else if q.confidence ≥ s.confidence_threshold then .MEDIUM
  else if q.intent_category = .GENERAL_INQUIRY then .LOW
  else .MEDIUM

/-- Check if escalation to human is required (router_agent.py, _check_escalation). -/
def checkEscalation (s : Settings) (q : QueryResult) (clarification_attempts : Nat) :
    Bool × Option EscalationReason :=
  if q.requires_escalation then
    if q.intent_category = .HUMAN_REQUEST then (true, some .USER_REQUESTED_HUMAN)
    else if q.intent_category = .POLICY_EXCEPTION then (true, some .POLICY_KEYWORD_DETECTED)
    else (true, some .SENSITIVE_TOPIC)
  else if q.intent ∈ escalationIntents then
    if q.intent = "request_human" ∨ q.intent = "speak_to_person" then
      (true, some .USER_REQUESTED_HUMAN)
    else (true, some .POLICY_KEYWORD_DETECTED)
  else if q.confidence < s.confidence_threshold then
    if clarification_attempts ≥ s.max_clarification_attempts then
      (true, some .MAX_CLARIFICATIONS_EXCEEDED)
    else (false, none)
  else (false, none)

/-- Get SLA hours based on priority (router_agent.py, _get_sla_hours); the Python
dictionary covers every Priority member, so the .get default is unreachable. -/
def getSlaHours (s : Settings) : Priority → Nat
  | .URGENT => s.sla_urgent_hours
  | .HIGH => s.sla_high_hours
  | .MEDIUM => s.sla_medium_hours
  | .LOW => s.sla_low_hours

/-- String appended to the rule trace for the escalation reason; the reason option
is always some when taken (proved below), so the empty default is unreachable. -/
def reasonTraceValue : Option EscalationReason → String
  | some r => escalationReasonValue r
  | none => ""

/-- Determine routing for a query (router_agent.py, RouterAgent.route). -/
def route (s : Settings) (q : QueryResult) (clarification_attempts : Nat) :
    RoutingDecision :=
  let rules0 : List String := ["query_agent_suggestion"]
  let dept0 := q.department_suggestion
  let deptCat := categoryToDepartment q.intent_category
  let dept1 := match deptCat with
    | some d => if d ≠ dept0 then d else dept0
    | none => dept0
  let rules1 := match deptCat with
    | some d => if d ≠ dept0 then rules0 ++ ["category_to_department_mapping"] else rules0
    | none => rules0
  let priority := determinePriority s q
  let rules2 := rules1 ++ ["priority_" ++ strLower (priorityValue priority)]
  let er := checkEscalation s q clarification_attempts
  let esc := er.1
  let rules3 := if esc then rules2 ++ ["escalation_" ++ reasonTraceValue er.2] else rules2
  let department := if esc then Department.ESCALATE_TO_HUMAN else dept1
  let sla := getSlaHours s priority
  { department := department
    priority := priority
    escalate_to_human := esc
    escalation_reason := if esc then er.2 else none
    suggested_sla_hours := sla
    routing_rules_applied := rules3 ++ ["sla_" ++ natRepr sla ++ "h"] }

/-- Check if clarification is needed before routing (router_agent.py, needs_clarification). -/
def needsClarification (s : Settings) (q : QueryResult) (clarification_attempts : Nat) :
    Bool :=
  if clarification_attempts ≥ s.max_clarification_attempts then false
  else if q.requires_escalation then false
  else decide (q.confidence < s.confidence_threshold)

end RouterAgent

/-- Two-decimal fixed-point rendering of a rational, modelling the Python
format specifier .2f applied to the confidence value.  The exact float
rounding mode is irrelevant to the properties proved below: only that the
result is a function of the number alone matters. -/
def formatQ2 (x : ℚ) : String :=
  let n : ℤ := round (x * 100)
  let m := n.natAbs
  (if n < 0 then "-" else "") ++
    natRepr (m / 100) ++ "." ++
    (if m % 100 < 10 then "0" ++ natRepr (m % 100) else natRepr (m % 100))

/-- Replaces underscores by spaces (Python str.replace of one character). -/
def replaceUnderscores (s : String) : String :=
  ⟨s.data.map (fun c => if c = '_' then ' ' else c)⟩

/-- Title-casing helper over characters: an alphabetic character is upper-cased
when it follows a non-alphabetic one, lower-cased otherwise. -/
def titleAux : Bool → List Char → List Char
  | _, [] => []
  | prevAlpha, c :: cs =>
    (if c.isAlpha then (if prevAlpha then c.toLower else c.toUpper) else c)
      :: titleAux c.isAlpha cs

/-- Title-cases a string (Python str.title restricted to ASCII words). -/
def pyTitle (s : String) : String := ⟨titleAux false s.data⟩

namespace ActionAgent

/-- Minimum relevance score for KB self-service
(action_agent.py, KB_SELF_SERVICE_THRESHOLD). -/
def kbSelfServiceThreshold : ℚ := 1/2

/-- Determine if a ticket should be created (action_agent.py, _should_create_ticket). -/
def shouldCreateTicket (routing_decision : RoutingDecision)
    (knowledge_articles : List KnowledgeArticle) : Bool :=
  if routing_decision.escalate_to_human then true
  else if routing_decision.priority = .HIGH ∨ routing_decision.priority = .URGENT then true
  else match knowledge_articles with
    | top_article :: _ =>
      if top_article.relevance_score ≥ kbSelfServiceThreshold then false else true
    | [] => true

/-- Generate a brief summary for the ticket (action_agent.py, _generate_ticket_summary). -/
def generateTicketSummary (q : QueryResult) : String :=
  pyTitle (replaceUnderscores q.intent) ++ " request"

/-- The description lines that depend only on the structured query fields:
the four header lines plus the optional entities and urgency lines
(action_agent.py, _generate_ticket_description before the PII branch). -/
def descFixedLines (q : QueryResult) : List String :=
  let lines0 :=
    ["Intent: " ++ q.intent,
     "Category: " ++ intentCategoryValue q.intent_category,
     "Confidence: " ++ formatQ2 q.confidence,
     "Sentiment: " ++ sentimentValue q.sentiment]
  let lines1 :=
    if q.entities ≠ [] then
      lines0 ++ ["Entities: " ++
        joinSep ", " (q.entities.map (fun kv => kv.1 ++ ": " ++ kv.2))]
    else lines0
  if q.urgency_indicators ≠ [] then
    lines1 ++ ["Urgency: " ++ joinSep ", " q.urgency_indicators]
  else lines1

/-- Generate ticket description without exposing raw PII
(action_agent.py, _generate_ticket_description). -/
def generateTicketDescription (q : QueryResult) (original_message : String) : String :=
  let lines :=
    if q.pii_detected then
      descFixedLines q ++ ["Note: PII detected in original message (not included)"]
    else
      descFixedLines q ++ ["User message: " ++ pyTake original_message 500]
  joinSep "\n" lines

/-- SLA hours to human-readable format (action_agent.py, SLA_DESCRIPTIONS). -/
def slaDescriptions : Nat → Option String
  | 1 => some "within 1 hour"
  | 4 => some "within 4 hours"
  | 24 => some "within 1 business day"
  | 48 => some "within 2 business days"
  | 72 => some "within 3 business days"
  | _ => none

/-- Format SLA hours as human-readable string (action_agent.py, _format_sla). -/
def formatSla (hours : Nat) : String :=
  match slaDescriptions hours with
  | some s => s
  | none =>
    if hours < 24 then "within " ++ natRepr hours ++ " hours"
    else
      let days := hours / 24
      "within " ++ natRepr days ++ " business day" ++ (if days > 1 then "s" else "")

/-- Knowledge article content payload (plain dictionary in the Python code). -/
def KBContent : Type := List (String × String)

/-- The three fallible collaborators the ActionAgent calls, modelled as
functions into Except: a raised exception is an error value that the
callers below propagate or handle exactly where the Python code does. -/
structure Collaborators where
  searchWithContent :
    String → Option Department → Nat → Except String (List KnowledgeArticle × List KBContent)
  createTicket :
    Department → Priority → String → String → String → List (String × String) →
      Except String (String × String)
  generateResponseMessage :
    String → Department → Option String → Bool → String → String →
      List KnowledgeArticle → List KBContent → Except String String

/-- Search knowledge base for relevant articles with full content
(action_agent.py, _search_knowledge_with_content).  The entity values are
strings in this model, so the isinstance str guard of the source always
passes.  Note the absence of any error handling: a collaborator failure
propagates to the caller. -/
def searchKnowledgeWithContent (c : Collaborators) (q : QueryResult)
    (department : Department) :
    Except String (List KnowledgeArticle × List KBContent) :=
  let searchTerms := [replaceUnderscores q.intent] ++ q.entities.map Prod.snd
  let searchQuery := joinSep " " searchTerms
  let deptFilter := if department = Department.ESCALATE_TO_HUMAN then none else some department
  c.searchWithContent searchQuery deptFilter 3

/-- Execute actions based on routing decision (action_agent.py, ActionAgent.execute).
No try/except surrounds any collaborator call in the source, so every
collaborator failure propagates out of execute. -/
def executeAction (c : Collaborators) (query_result : QueryResult)
    (routing_decision : RoutingDecision) (student_id_hash : String)
    (original_message : String) : Except String ActionResult := do
  let (knowledge_articles, kb_article_contents) ←
    searchKnowledgeWithContent c query_result routing_decision.department
  let should_create := shouldCreateTicket routing_decision knowledge_articles
  let (ticket_id, ticket_url, status) ←
    if should_create then do
      let summary := generateTicketSummary query_result
      let description := generateTicketDescription query_result original_message
      let (tid, turl) ← c.createTicket routing_decision.department
        routing_decision.priority summary description student_id_hash query_result.entities
      pure (some tid, some turl,
        if routing_decision.escalate_to_human then ActionStatus.ESCALATED
        else ActionStatus.CREATED)
    else
      pure (none, none, ActionStatus.KB_ONLY)
  let estimated_response_time := formatSla routing_decision.suggested_sla_hours
  let user_message ← c.generateResponseMessage query_result.intent
    routing_decision.department ticket_id routing_decision.escalate_to_human
    estimated_response_time original_message knowledge_articles kb_article_contents
  pure
    { ticket_id := ticket_id
      ticket_url := ticket_url
      department := routing_decision.department
      status := status
      knowledge_articles := knowledge_articles
      estimated_response_time := estimated_response_time
      escalated := routing_decision.escalate_to_human
      user_message := user_message }

end ActionAgent

namespace MockTicketService

/-- Department code table (ticket_service.py, _generate_ticket_id dept_codes); the
dictionary covers every Department member, so the GEN default is unreachable. -/
def deptCode : Department → String
  | .IT => "IT" | .HR => "HR" | .REGISTRAR => "REG" | .FINANCIAL_AID => "FIN"
  | .FACILITIES => "FAC" | .STUDENT_AFFAIRS => "STU" | .CAMPUS_SAFETY => "SAF"
  | .ESCALATE_TO_HUMAN => "ESC"

/-- Decimal rendering padded on the left with zeros to a minimum width of four
(the Python format specifier 04d). -/
def pad4 (n : Nat) : String :=
  let s := natRepr n
  if s.length < 4 then ⟨List.replicate (4 - s.length) '0'⟩ ++ s else s

/-- Generate a new ticket ID (ticket_service.py, _generate_ticket_id).  The
current date string and the per-key counter value before increment are made
explicit inputs; the sequence number is the incremented counter. -/
def generateTicketId (department : Department) (today : String) (priorCount : Nat) :
    String :=
  "TKT-" ++ deptCode department ++ "-" ++ today ++ "-" ++ pad4 (priorCount + 1)

end MockTicketService

/-- Uppercase ASCII letter test, the character class of the ticket id pattern. -/
def isUpperAZ (c : Char) : Bool := 'A' ≤ c && c ≤ 'Z'

/-- Decimal digit test, the character class of the ticket id pattern. -/
def isDigit09 (c : Char) : Bool := '0' ≤ c && c ≤ '9'

/-- Splits a character list at dash characters; mirrors splitting a string on
the separator of the ticket id pattern.  Never returns an empty list. -/
def splitOnDash : List Char → List (List Char)
  | [] => [[]]
  | c :: cs =>
    if c = '-' then [] :: splitOnDash cs
    else match splitOnDash cs with
      | r :: rs => (c :: r) :: rs
      | [] => [[c]]

/-- Decides whether a string matches the anchored ticket id pattern
TKT dash two-or-three uppercase dash eight digits dash four digits
(schemas.py, validate_ticket_id).  Since none of the component character
classes admits a dash, splitting on dashes is equivalent to the regex. -/
def matchesTicketPattern (s : String) : Bool :=
  match splitOnDash s.data with
  | [p0, p1, p2, p3] =>
    p0 == ['T', 'K', 'T'] &&
    (p1.length == 2 || p1.length == 3) && p1.all isUpperAZ &&
    p2.length == 8 && p2.all isDigit09 &&
    p3.length == 4 && p3.all isDigit09
  | _ => false

/-! Concrete sample inputs used by witnesses and by the evaluations of the
code at failing inputs. -/

/-- A clear account-access query with high confidence and no escalation signals. -/
def qPassword : QueryResult where
  intent := "password_reset"
  intent_category := .ACCOUNT_ACCESS
  department_suggestion := .IT
  entities := []
  confidence := 9/10
  requires_escalation := false
  pii_detected := false
  pii_types := []
  sentiment := .NEUTRAL
  urgency_indicators := []

/-- An explicit human request flagged for escalation by the classifier. -/
def qHumanReq : QueryResult where
  intent := "request_human"
  intent_category := .HUMAN_REQUEST
  department_suggestion := .IT
  entities := []
  confidence := 1/2
  requires_escalation := true
  pii_detected := false
  pii_types := []
  sentiment := .NEUTRAL
  urgency_indicators := []

/-- A general inquiry whose confidence sits exactly on the default threshold. -/
def qBoundary : QueryResult where
  intent := "general_question"
  intent_category := .GENERAL_INQUIRY
  department_suggestion := .IT
  entities := []
  confidence := 7/10
  requires_escalation := false
  pii_detected := false
  pii_types := []
  sentiment := .NEUTRAL
  urgency_indicators := []

/-- A query in which PII was detected. -/
def qWithPII : QueryResult where
  intent := "transcript_request"
  intent_category := .ACADEMIC_RECORDS
  department_suggestion := .REGISTRAR
  entities := []
  confidence := 8/10
  requires_escalation := false
  pii_detected := true
  pii_types := ["ssn"]
  sentiment := .NEUTRAL
  urgency_indicators := []

/-- A routing decision that escalates to a human. -/
def rdEscalated : RoutingDecision where
  department := .ESCALATE_TO_HUMAN
  priority := .URGENT
  escalate_to_human := true
  escalation_reason := some .USER_REQUESTED_HUMAN
  suggested_sla_hours := 1
  routing_rules_applied := []

/-- A low-priority routing decision without escalation. -/
def rdLowNoEscalation : RoutingDecision where
  department := .IT
  priority := .LOW
  escalate_to_human := false
  escalation_reason := none
  suggested_sla_hours := 72
  routing_rules_applied := []

/-- A knowledge article whose relevance score sits exactly on the self-service
threshold. -/
def artHalf : KnowledgeArticle where
  article_id := "KB-001"
  title := "Reset your password"
  url := "https://kb.university.edu/KB-001"
  snippet := none
  relevance_score := 1/2
  department := some .IT

/-- Collaborators whose ticket-creation call raises while knowledge search and
response generation succeed. -/
def ticketFailCollab : ActionAgent.Collaborators where
  searchWithContent := fun _ _ _ => Except.ok ([], [])
  createTicket := fun _ _ _ _ _ _ => Except.error "ticket service down"
  generateResponseMessage := fun _ _ _ _ _ _ _ _ => Except.ok "response"

/-- Collaborators whose knowledge-base search call raises while ticket creation
and response generation succeed. -/
def kbFailCollab : ActionAgent.Collaborators where
  searchWithContent := fun _ _ _ => Except.error "kb down"
  createTicket := fun _ _ _ _ _ _ => Except.ok ("TKT-IT-20260120-0001", "url")
  generateResponseMessage := fun _ _ _ _ _ _ _ _ => Except.ok "response"

/-! Helper lemmas. -/

/-- Data of a string concatenation is the concatenation of the data. -/
theorem data_append (a b : String) : (a ++ b).data = a.data ++ b.data := by
  cases a; cases b; rfl

/-- The route projection to the escalation flag is the first component of
the escalation check. -/
theorem route_escalate_def (s : Settings) (q : QueryResult) (a : Nat) :
    (RouterAgent.route s q a).escalate_to_human = (RouterAgent.checkEscalation s q a).1 :=
  rfl

/-- The route projection to the escalation reason keeps the reason of the
escalation check exactly when the flag is set. -/
theorem route_reason_def (s : Settings) (q : QueryResult) (a : Nat) :
    (RouterAgent.route s q a).escalation_reason =
      (if (RouterAgent.checkEscalation s q a).1 then
        (RouterAgent.checkEscalation s q a).2 else none) :=
  rfl

/-- The route projection to the priority is the priority determination. -/
theorem route_priority_def (s : Settings) (q : QueryResult) (a : Nat) :
    (RouterAgent.route s q a).priority = RouterAgent.determinePriority s q :=
  rfl

/-- The route projection to the department escalates exactly with the flag. -/
theorem route_department_def (s : Settings) (q : QueryResult) (a : Nat) :
    (RouterAgent.route s q a).department =
      (if (RouterAgent.checkEscalation s q a).1 then Department.ESCALATE_TO_HUMAN
       else match RouterAgent.categoryToDepartment q.intent_category with
         | some d => if d ≠ q.department_suggestion then d else q.department_suggestion
         | none => q.department_suggestion) :=
  rfl

/-- Whenever the escalation check sets the flag, it also produces a reason, and
that reason is one of the four values the router can emit. -/
theorem checkEscalation_true_reason (s : Settings) (q : QueryResult) (a : Nat)
    (h : (RouterAgent.checkEscalation s q a).1 = true) :
    ∃ r, (RouterAgent.checkEscalation s q a).2 = some r ∧
      (r = .USER_REQUESTED_HUMAN ∨ r = .POLICY_KEYWORD_DETECTED ∨
       r = .SENSITIVE_TOPIC ∨ r = .MAX_CLARIFICATIONS_EXCEEDED) := by
  unfold RouterAgent.checkEscalation at h ⊢
  split_ifs at h ⊢ <;> simp_all

/-- The ordered priority rule chain exactly as the specification states it:
pre-escalation flag, frustrated or urgent sentiment, urgency indicators,
confidence at or above threshold, general inquiry, default medium. -/
def specPriorityChain (s : Settings) (q : QueryResult) : Priority :=
  if q.requires_escalation then .URGENT
  else if q.sentiment = .FRUSTRATED ∨ q.sentiment = .URGENT then .HIGH
  else if q.urgency_indicators ≠ [] then .HIGH
  else if q.confidence ≥ s.confidence_threshold then .MEDIUM
  else if q.intent_category = .GENERAL_INQUIRY then .LOW
  else .MEDIUM

/-! Claim theorems. -/

/-- C1: for every RoutingDecision returned by RouterAgent.route (any settings,
any QueryResult, any clarification attempt count — in particular any
confidence in the unit interval and any non-negative attempt count),
escalate_to_human is true if and only if escalation_reason is non-null. -/
theorem route_escalate_iff_reason (s : Settings) (q : QueryResult) (a : Nat) :
    (RouterAgent.route s q a).escalate_to_human = true ↔
      (RouterAgent.route s q a).escalation_reason ≠ none := by
  rw [route_escalate_def, route_reason_def]
  cases hesc : (RouterAgent.checkEscalation s q a).1 with
  | false => simp
  | true =>
    obtain ⟨r, hr, -⟩ := checkEscalation_true_reason s q a hesc
    simp [hr]

/-- C5: the priority computed by RouterAgent.route equals the first matching
rule of the ordered chain stated by the specification; in particular a
general-inquiry query with confidence at or above the threshold gets medium,
not low. -/
theorem route_priority_matches_chain (s : Settings) (q : QueryResult) (a : Nat) :
    (RouterAgent.route s q a).priority = specPriorityChain s q := by
  rw [route_priority_def]
  unfold RouterAgent.determinePriority specPriorityChain
  split_ifs <;> simp_all

/-- C6: needs_clarification returns true exactly when the attempt count is
below the maximum, the query does not already require escalation, and the
confidence is strictly below the threshold; confidence exactly equal to the
threshold counts as sufficient and yields false. -/
theorem needs_clarification_iff (s : Settings) (q : QueryResult) (a : Nat) :
    (RouterAgent.needsClarification s q a = true ↔
      (a < s.max_clarification_attempts ∧ q.requires_escalation = false ∧
        q.confidence < s.confidence_threshold)) ∧
    (q.confidence = s.confidence_threshold →
      RouterAgent.needsClarification s q a = false) := by
  constructor
  · unfold RouterAgent.needsClarification
    split_ifs with h1 h2 <;> simp_all
  · intro hconf
    unfold RouterAgent.needsClarification
    split_ifs <;> simp [hconf]

/-- C6 witness: at the default settings, a query whose confidence equals the
default threshold does not trigger clarification. -/
theorem needs_clarification_iff_witness :
    RouterAgent.needsClarification defaultSettings qBoundary 0 = false :=
  (needs_clarification_iff defaultSettings qBoundary 0).2 rfl

/-- C7: whenever RouterAgent.route escalates, the department of the decision
is the escalate-to-human department, overriding the suggested department and
the category mapping. -/
theorem route_escalation_forces_human_department (s : Settings) (q : QueryResult)
    (a : Nat) (h : (RouterAgent.route s q a).escalate_to_human = true) :
    (RouterAgent.route s q a).department = Department.ESCALATE_TO_HUMAN := by
  rw [route_escalate_def] at h
  rw [route_department_def, h]
  simp

/-- C7 witness: the concrete human-request query escalates at the default
settings, and its department is escalate-to-human. -/
theorem route_escalation_forces_human_department_witness :
    (RouterAgent.route defaultSettings qHumanReq 0).department =
      Department.ESCALATE_TO_HUMAN :=
  route_escalation_forces_human_department defaultSettings qHumanReq 0 rfl

/-- C10: every escalation reason the router produces is one of exactly four
values — user requested human, policy keyword detected, sensitive topic, or
max clarifications exceeded; the declared reasons confidence_too_low and
multi_department are never produced. -/
theorem route_reason_subset (s : Settings) (q : QueryResult) (a : Nat)
    (r : EscalationReason)
    (h : (RouterAgent.route s q a).escalation_reason = some r) :
    r ≠ .CONFIDENCE_TOO_LOW ∧ r ≠ .MULTI_DEPARTMENT ∧
      (r = .USER_REQUESTED_HUMAN ∨ r = .POLICY_KEYWORD_DETECTED ∨
       r = .SENSITIVE_TOPIC ∨ r = .MAX_CLARIFICATIONS_EXCEEDED) := by
  rw [route_reason_def] at h
  rcases hesc : (RouterAgent.checkEscalation s q a).1 with _ | _
  · rw [hesc] at h; simp at h
  · rw [hesc] at h
    obtain ⟨r', hr', hmem⟩ := checkEscalation_true_reason s q a hesc
    simp only [if_true] at h
    rw [hr'] at h
    cases h
    rcases hmem with h | h | h | h <;> subst h <;> simp

/-- C10 witness: the concrete human-request query escalates with the reason
user_requested_human, which the theorem places inside the allowed set. -/
theorem route_reason_subset_witness :
    EscalationReason.USER_REQUESTED_HUMAN ≠ EscalationReason.CONFIDENCE_TOO_LOW ∧
    EscalationReason.USER_REQUESTED_HUMAN ≠ EscalationReason.MULTI_DEPARTMENT ∧
      (EscalationReason.USER_REQUESTED_HUMAN = .USER_REQUESTED_HUMAN ∨
       EscalationReason.USER_REQUESTED_HUMAN = .POLICY_KEYWORD_DETECTED ∨
       EscalationReason.USER_REQUESTED_HUMAN = .SENSITIVE_TOPIC ∨
       EscalationReason.USER_REQUESTED_HUMAN = .MAX_CLARIFICATIONS_EXCEEDED) :=
  route_reason_subset defaultSettings qHumanReq 0 .USER_REQUESTED_HUMAN rfl

/-- C4: a ticket is always created for escalations and for high or urgent
priority regardless of article scores; otherwise no ticket is created exactly
when the article list is non-empty and its top-ranked article scores at least
one half (boundary inclusive). -/
theorem should_create_ticket_spec (rd : RoutingDecision)
    (arts : List KnowledgeArticle) :
    (rd.escalate_to_human = true → ActionAgent.shouldCreateTicket rd arts = true) ∧
    (rd.priority = .HIGH ∨ rd.priority = .URGENT →
      ActionAgent.shouldCreateTicket rd arts = true) ∧
    (rd.escalate_to_human = false → rd.priority ≠ .HIGH → rd.priority ≠ .URGENT →
      (ActionAgent.shouldCreateTicket rd arts = false ↔
        ∃ top, arts.head? = some top ∧
          ActionAgent.kbSelfServiceThreshold ≤ top.relevance_score)) := by
  refine ⟨?_, ?_, ?_⟩
  · intro h; unfold ActionAgent.shouldCreateTicket; simp [h]
  · intro h; unfold ActionAgent.shouldCreateTicket
    split_ifs <;> simp_all
  · intro h1 h2 h3
    unfold ActionAgent.shouldCreateTicket
    rcases arts with _ | ⟨top, rest⟩
    · simp [h1, h2, h3]
    · simp only [h1, List.head?_cons]
      split_ifs with hp hs <;> simp_all [ge_iff_le]

/-- C4 witness: with escalation off, low priority, and a single article scoring
exactly one half, no ticket is created (the boundary is inclusive). -/
theorem should_create_ticket_spec_witness :
    ActionAgent.shouldCreateTicket rdLowNoEscalation [artHalf] = false :=
  ((should_create_ticket_spec rdLowNoEscalation [artHalf]).2.2 rfl
      (by decide) (by decide)).mpr
    ⟨artHalf, rfl, le_refl _⟩

/-- C8: when PII is detected the generated ticket description is independent
of the original message — any two messages yield the identical description;
when no PII is detected the description is the structured fixed lines followed
by at most the first 500 characters of the raw message. -/
theorem ticket_description_pii_safe :
    (∀ (q : QueryResult) (m1 m2 : String), q.pii_detected = true →
      ActionAgent.generateTicketDescription q m1 =
        ActionAgent.generateTicketDescription q m2) ∧
    (∀ (q : QueryResult) (m : String), q.pii_detected = false →
      ActionAgent.generateTicketDescription q m =
        joinSep "\n" (ActionAgent.descFixedLines q ++
          ["User message: " ++ pyTake m 500]) ∧
      (pyTake m 500).length ≤ 500) := by
  constructor
  · intro q m1 m2 hpii
    unfold ActionAgent.generateTicketDescription
    simp [hpii]
  · intro q m hpii
    refine ⟨?_, ?_⟩
    · unfold ActionAgent.generateTicketDescription
      simp [hpii]
    · show (pyTake m 500).data.length ≤ 500
      simp [pyTake]

/-- C8 witness: a concrete PII query yields the same description for two
different messages, and a concrete PII-free query exposes only the take of
its message. -/
theorem ticket_description_pii_safe_witness :
    ActionAgent.generateTicketDescription qWithPII "my ssn is 123-45-6789" =
      ActionAgent.generateTicketDescription qWithPII "call me at 555-0100" ∧
    ActionAgent.generateTicketDescription qPassword "I forgot my password" =
      joinSep "\n" (ActionAgent.descFixedLines qPassword ++
        ["User message: " ++ pyTake "I forgot my password" 500]) :=
  ⟨ticket_description_pii_safe.1 qWithPII "my ssn is 123-45-6789"
      "call me at 555-0100" rfl,
   (ticket_description_pii_safe.2 qPassword "I forgot my password" rfl).1⟩

/-- C2 evaluation of the code at the failing input: when the ticket-creation
collaborator raises during execute, the error propagates out of execute — no
ActionResult is produced at all, so the turn never reports a status of error
with a null ticket id as the specification requires. -/
theorem execute_ticket_failure_propagates :
    ActionAgent.executeAction ticketFailCollab qPassword rdEscalated
      "hash" "I forgot my password" = Except.error "ticket service down" := by
  rfl

/-- C3 evaluation of the code at the failing input: when the knowledge-base
search collaborator raises during execute, the error propagates and the whole
turn fails instead of degrading to an empty article list. -/
theorem execute_kb_failure_propagates :
    ActionAgent.executeAction kbFailCollab qPassword rdLowNoEscalation
      "hash" "I forgot my password" = Except.error "kb down" := by
  rfl

/-! Lemmas about the decimal rendering and the ticket id pattern. -/

/-- An uppercase ASCII letter is not a dash. -/
theorem isUpperAZ_ne_dash {c : Char} (h : isUpperAZ c = true) : c ≠ '-' := by
  intro heq; subst heq; exact absurd h (by decide)

/-- A decimal digit character is not a dash. -/
theorem isDigit09_ne_dash {c : Char} (h : isDigit09 c = true) : c ≠ '-' := by
  intro heq; subst heq; exact absurd h (by decide)

/-- Splitting a dash-free character list yields that single component. -/
theorem splitOnDash_no_dash (xs : List Char) (h : ∀ c ∈ xs, c ≠ '-') :
    splitOnDash xs = [xs] := by
  induction xs with
  | nil => rfl
  | cons c cs ih =>
    have hc : c ≠ '-' := h c (List.mem_cons_self c cs)
    have ih' := ih (fun d hd => h d (List.mem_cons_of_mem c hd))
    simp [splitOnDash, hc, ih']

/-- Splitting peels a dash-free component followed by a dash. -/
theorem splitOnDash_append (xs ys : List Char) (h : ∀ c ∈ xs, c ≠ '-') :
    splitOnDash (xs ++ '-' :: ys) = xs :: splitOnDash ys := by
  induction xs with
  | nil => simp [splitOnDash]
  | cons c cs ih =>
    have hc : c ≠ '-' := h c (List.mem_cons_self c cs)
    have ih' := ih (fun d hd => h d (List.mem_cons_of_mem c hd))
    simp [splitOnDash, hc, ih']

/-- The digit character of a digit value is a decimal digit. -/
theorem digitChar_digit {n : Nat} (h : n < 10) : isDigit09 (digitChar n) = true := by
  interval_cases n <;> decide

/-- Every character of the decimal expansion is a decimal digit. -/
theorem natDigitsAux_digits (fuel : Nat) :
    ∀ n, ∀ c ∈ natDigitsAux fuel n, isDigit09 c = true := by
  induction fuel with
  | zero => intro n c hc; simp [natDigitsAux] at hc
  | succ fuel ih =>
    intro n c hc
    unfold natDigitsAux at hc
    split_ifs at hc with h10
    · simp at hc; subst hc; exact digitChar_digit h10
    · rcases List.mem_append.1 hc with hmem | hmem
      · exact ih (n / 10) c hmem
      · simp at hmem; subst hmem
        exact digitChar_digit (Nat.mod_lt n (by norm_num))

/-- The decimal expansion of a number below the k-th power of ten has at most
k characters, for every fuel value. -/
theorem natDigitsAux_length_le (fuel : Nat) :
    ∀ n k, 0 < k → n < 10 ^ k → (natDigitsAux fuel n).length ≤ k := by
  induction fuel with
  | zero => intro n k hk _; simp [natDigitsAux]
  | succ fuel ih =>
    intro n k hk h
    unfold natDigitsAux
    split_ifs with h10
    · simpa using hk
    · rcases Nat.lt_or_ge k 2 with hk2 | hk2
      · have hk1 : k = 1 := by omega
        subst hk1
        simp [pow_one] at h
        omega
      · have hdiv : n / 10 < 10 ^ (k - 1) := by
          rw [Nat.div_lt_iff_lt_mul (by norm_num : (0:ℕ) < 10)]
          calc n < 10 ^ k := h
            _ = 10 ^ (k - 1) * 10 := by
                conv_lhs => rw [show k = (k - 1) + 1 by omega]
                rw [pow_succ]
        have hlen := ih (n / 10) (k - 1) (by omega) hdiv
        simp only [List.length_append, List.length_cons, List.length_nil]
        omega

/-- The decimal rendering of a number at most 9999 has at most four characters. -/
theorem natRepr_length_le_four {n : Nat} (h : n ≤ 9999) :
    (natRepr n).length ≤ 4 := by
  have h4 : n < 10 ^ 4 := by norm_num; omega
  exact natDigitsAux_length_le (n + 1) n 4 (by norm_num) h4

/-- Zero-padding a decimal rendering of at most four characters yields exactly
four decimal digit characters. -/
theorem pad4_spec (m : Nat) (hle : (natRepr m).length ≤ 4) :
    (MockTicketService.pad4 m).data.length = 4 ∧
      ∀ c ∈ (MockTicketService.pad4 m).data, isDigit09 c = true := by
  unfold MockTicketService.pad4
  dsimp only
  split_ifs with hlt
  · constructor
    · simp only [data_append]
      simp only [List.length_append, List.length_replicate]
      have : (natRepr m).data.length = (natRepr m).length := rfl
      omega
    · intro c hc
      simp only [data_append] at hc
      rcases List.mem_append.1 hc with hmem | hmem
      · have : c = '0' := List.eq_of_mem_replicate hmem
        subst this; decide
      · exact natDigitsAux_digits (m + 1) m c hmem
  · constructor
    · have h1 : (natRepr m).data.length = (natRepr m).length := rfl
      omega
    · intro c hc
      exact natDigitsAux_digits (m + 1) m c hc

/-- Every department code is two or three uppercase ASCII letters. -/
theorem deptCode_facts (d : Department) :
    (((MockTicketService.deptCode d).data.length == 2) ||
      ((MockTicketService.deptCode d).data.length == 3)) = true ∧
    (MockTicketService.deptCode d).data.all isUpperAZ = true := by
  cases d <;> exact ⟨by decide, by decide⟩

/-- The character data of a generated ticket id decomposes into the four
dash-separated components. -/
theorem generateTicketId_data (d : Department) (today : String) (n : Nat) :
    (MockTicketService.generateTicketId d today n).data =
      ['T', 'K', 'T'] ++ '-' ::
        ((MockTicketService.deptCode d).data ++ '-' ::
          (today.data ++ '-' :: (MockTicketService.pad4 (n + 1)).data)) := by
  unfold MockTicketService.generateTicketId
  have h1 : ("TKT-" : String).data = ['T', 'K', 'T', '-'] := rfl
  have h2 : ("-" : String).data = ['-'] := rfl
  simp [data_append, h1, h2]

/-- C9 counterexample: with 9999 prior tickets for the IT department on the
same day, the next generated ticket id carries a five-digit sequence number
and fails the validated pattern, refuting the claim for an arbitrary number
of prior tickets. -/
theorem ticket_id_overflow_cex :
    matchesTicketPattern
      (MockTicketService.generateTicketId Department.IT "20260120" 9999) = false := by
  decide

/-- C9 amended: every ticket id the generator produces matches the anchored
pattern TKT, two or three uppercase letters, eight digits, four digits —
provided the date string is eight decimal digits and the sequence number of
the day (one more than the prior count) does not exceed 9999. -/
theorem ticket_id_matches_pattern (d : Department) (today : String) (n : Nat)
    (hlen : today.data.length = 8)
    (hdig : ∀ c ∈ today.data, isDigit09 c = true)
    (hseq : n + 1 ≤ 9999) :
    matchesTicketPattern (MockTicketService.generateTicketId d today n) = true := by
  obtain ⟨hcode_len, hcode_upper⟩ := deptCode_facts d
  obtain ⟨hpad_len, hpad_dig⟩ := pad4_spec (n + 1) (natRepr_length_le_four hseq)
  have hcode_nodash : ∀ c ∈ (MockTicketService.deptCode d).data, c ≠ '-' :=
    fun c hc => isUpperAZ_ne_dash (List.all_eq_true.1 hcode_upper c hc)
  have htoday_nodash : ∀ c ∈ today.data, c ≠ '-' :=
    fun c hc => isDigit09_ne_dash (hdig c hc)
  have hpad_nodash : ∀ c ∈ (MockTicketService.pad4 (n + 1)).data, c ≠ '-' :=
    fun c hc => isDigit09_ne_dash (hpad_dig c hc)
  unfold matchesTicketPattern
  rw [generateTicketId_data,
    splitOnDash_append ['T', 'K', 'T'] _ (by decide),
    splitOnDash_append _ _ hcode_nodash,
    splitOnDash_append _ _ htoday_nodash,
    splitOnDash_no_dash _ hpad_nodash]
  simp only [Bool.and_eq_true, Bool.or_eq_true, beq_iff_eq, List.all_eq_true]
  simp_all

/-- C9 witness for the amended claim: the first IT ticket of 2026-01-20
matches the pattern. -/
theorem ticket_id_matches_pattern_witness :
    matchesTicketPattern
      (MockTicketService.generateTicketId Department.IT "20260120" 0) = true :=
  ticket_id_matches_pattern Department.IT "20260120" 0 (by decide) (by decide)
    (by omega)

end FrontDoor
